import Mathlib

/-!
# nacltoons `level_layer.cc`: a shallow embedding

The drawing layer of the game turns a freehand stroke into a Box2D body.
The C++ `float` values are modelled by exact rationals (`ℚ`), so every
statement below is about the arithmetic the code writes down, without
rounding.  Functions of the libraries the file calls (cocos2d-x `ccpDistance`,
libm `atan2`, Box2D `b2PolygonShape::SetAsBox`) are not part of the repository;
they are collected in the record `Extern` and every general theorem holds for
any implementation of them.  `abs(distance)` in `AddLineToBody` is read as the
absolute value of the float, and `brush_radius_` as a float member.
-/

namespace LevelLayer

/-! ## Constants and conversion macros -/

/-- Pixels-to-meters ratio, `#define PTM_RATIO 32`. -/
def PTM_RATIO : ℚ := 32

/-- `#define SCREEN_TO_WORLD(n) ((n) / PTM_RATIO)` on a float argument. -/
def SCREEN_TO_WORLD (n : ℚ) : ℚ := n / PTM_RATIO

/-- `#define WORLD_TO_SCREEN(n) ((n) * PTM_RATIO)`. -/
def WORLD_TO_SCREEN (n : ℚ) : ℚ := n * PTM_RATIO

/-- The C constant `FLT_MAX` (largest finite single precision value). -/
def FLT_MAX : ℚ := 340282346638528859811704183484516925440

/-- Conversion of a float to `int`: truncation toward zero. -/
def toInt (q : ℚ) : ℤ := if 0 ≤ q then ⌊q⌋ else ⌈q⌉

/-! ## Geometry records -/

/-- cocos2d-x `CCPoint`. -/
structure CCPoint where
  x : ℚ
  y : ℚ
  deriving DecidableEq, Repr

/-- cocos2d-x `CCSize`. -/
structure CCSize where
  width : ℚ
  height : ℚ
  deriving DecidableEq, Repr

/-- cocos2d-x `CCRect`. -/
structure CCRect where
  origin : CCPoint
  size : CCSize
  deriving DecidableEq, Repr

/-- What the file reads from `CCDirector::sharedDirector()`. -/
structure CCDirector where
  visibleOrigin : CCPoint
  visibleSize : CCSize
  winSize : CCSize
  deriving DecidableEq, Repr

/-- Box2D `b2Vec2`. -/
structure b2Vec2 where
  x : ℚ
  y : ℚ
  deriving DecidableEq, Repr

/-! ## `ClampBrushLocation` -/

/-- `LevelLayer::ClampBrushLocation`: the four guarded assignments, in the
order of the source. -/
def ClampBrushLocation (d : CCDirector) (brush_radius : ℚ) (point : CCPoint) : CCPoint :=
  let origin := d.visibleOrigin
  let visible_size := d.visibleSize
  let min_x := origin.x + brush_radius
  let min_y := origin.y + brush_radius
  let point := if point.x < min_x then { point with x := min_x } else point
  let point := if point.y < min_y then { point with y := min_y } else point
  let max_x := origin.x + visible_size.width - brush_radius
  let max_y := origin.y + visible_size.height - brush_radius
  let point := if point.x > max_x then { point with x := max_x } else point
  let point := if point.y > max_y then { point with y := max_y } else point
  point

/-- The inset rectangle `[origin + radius, origin + size - radius]` per axis. -/
def InBrushArea (d : CCDirector) (brush_radius : ℚ) (p : CCPoint) : Prop :=
  d.visibleOrigin.x + brush_radius ≤ p.x ∧
  p.x ≤ d.visibleOrigin.x + d.visibleSize.width - brush_radius ∧
  d.visibleOrigin.y + brush_radius ≤ p.y ∧
  p.y ≤ d.visibleOrigin.y + d.visibleSize.height - brush_radius

instance (d : CCDirector) (r : ℚ) (p : CCPoint) : Decidable (InBrushArea d r p) := by
  unfold InBrushArea; infer_instance

/-! ## External library functions -/

/-- The library functions `level_layer.cc` calls and does not define.
`ccpDistance` is cocos2d-x (the Euclidean distance of two points, never
negative), `atan2` is libm, `SetAsBox` is Box2D `b2PolygonShape::SetAsBox`
(the vertex list of the box it builds).  The angle type is left open, as the
value of `atan2` is in general not a rational number. -/
structure Extern where
  Angle : Type
  ccpDistance : CCPoint → CCPoint → ℚ
  ccpDistance_nonneg : ∀ a b, 0 ≤ ccpDistance a b
  atan2 : ℚ → ℚ → Angle
  SetAsBox : ℚ → ℚ → b2Vec2 → Angle → List b2Vec2

/-! ## Box2D bodies -/

/-- Box2D `b2Rot`: sine and cosine of the body angle. -/
structure b2Rot where
  s : ℚ
  c : ℚ
  deriving DecidableEq, Repr

/-- Box2D `b2Transform`. -/
structure b2Transform where
  p : b2Vec2
  q : b2Rot
  deriving DecidableEq, Repr

/-- Box2D `b2Mul(const b2Transform&, const b2Vec2&)`. -/
def b2Mul (T : b2Transform) (v : b2Vec2) : b2Vec2 :=
  ⟨(T.q.c * v.x - T.q.s * v.y) + T.p.x, (T.q.s * v.x + T.q.c * v.y) + T.p.y⟩

/-- The two shape kinds the file tells apart: `b2CircleShape` with `m_p` and
`m_radius`, and `b2PolygonShape` with its `m_vertices`. -/
inductive b2Shape where
  | circle (m_p : b2Vec2) (m_radius : ℚ)
  | polygon (m_vertices : List b2Vec2)
  deriving DecidableEq, Repr

/-- A fixture as `AddShapeToBody` defines it. -/
structure b2Fixture where
  shape : b2Shape
  density : ℚ
  friction : ℚ
  restitution : ℚ
  deriving DecidableEq, Repr

/-- A body: its transform, its user data read as an `int`, and its fixtures in
the order they were created. -/
structure b2Body where
  xf : b2Transform
  userData : ℤ
  fixtures : List b2Fixture
  deriving DecidableEq, Repr

/-- `b2Body::GetPosition`. -/
def b2Body.GetPosition (body : b2Body) : b2Vec2 := body.xf.p

/-- `b2Body::GetFixtureList`: Box2D links each new fixture at the head. -/
def b2Body.GetFixtureList (body : b2Body) : List b2Fixture := body.fixtures.reverse

/-- `b2World::CreateBody` for the `b2BodyDef` of `CreatePhysicsBody`: the given
position, angle 0, no user data, no fixture. -/
def CreateBody (position : b2Vec2) : b2Body :=
  { xf := ⟨position, ⟨0, 1⟩⟩, userData := 0, fixtures := [] }

/-- `b2Body::CreateFixture`. -/
def b2Body.CreateFixture (body : b2Body) (f : b2Fixture) : b2Body :=
  { body with fixtures := body.fixtures ++ [f] }

/-- Whether a fixture carries a circle. -/
def b2Fixture.isCircle (f : b2Fixture) : Bool :=
  match f.shape with
  | .circle _ _ => true
  | .polygon _ => false

/-- Whether a fixture carries a polygon (a box). -/
def b2Fixture.isPolygon (f : b2Fixture) : Bool :=
  match f.shape with
  | .circle _ _ => false
  | .polygon _ => true

/-! ## `CalcBodyBounds` -/

/-- The four running extrema of `CalcBodyBounds`. -/
structure Bounds where
  minX : ℚ
  maxX : ℚ
  minY : ℚ
  maxY : ℚ
  deriving DecidableEq, Repr

/-- The circle branch of the fixture loop. -/
def boundsCircle (xform : b2Transform) (b : Bounds) (m_p : b2Vec2) (m_radius : ℚ) : Bounds :=
  let center := b2Mul xform m_p
  let minX := if center.x - m_radius < b.minX then center.x - m_radius else b.minX
  let maxX := if center.x + m_radius > b.maxX then center.x + m_radius else b.maxX
  let minY := if center.y - m_radius < b.minY then center.y - m_radius else b.minY
  let maxY := if center.y + m_radius > b.maxY then center.y + m_radius else b.maxY
  ⟨minX, maxX, minY, maxY⟩

/-- One pass of the vertex loop of the polygon branch. -/
def boundsVertex (xform : b2Transform) (b : Bounds) (v : b2Vec2) : Bounds :=
  let vertex := b2Mul xform v
  let minX := if vertex.x < b.minX then vertex.x else b.minX
  let maxX := if vertex.x > b.maxX then vertex.x else b.maxX
  let minY := if vertex.y < b.minY then vertex.y else b.minY
  let maxY := if vertex.y > b.maxY then vertex.y else b.maxY
  ⟨minX, maxX, minY, maxY⟩

/-- The body of the fixture loop. -/
def boundsFixture (xform : b2Transform) (b : Bounds) (f : b2Fixture) : Bounds :=
  match f.shape with
  | .circle m_p m_radius => boundsCircle xform b m_p m_radius
  | .polygon m_vertices => m_vertices.foldl (boundsVertex xform) b

/-- `CalcBodyBounds`: the extrema start at `FLT_MAX` (minima) and `0` (maxima). -/
def CalcBodyBounds (d : CCDirector) (body : b2Body) : CCRect :=
  let s := d.winSize
  let b0 : Bounds := ⟨FLT_MAX, 0, FLT_MAX, 0⟩
  let b := body.GetFixtureList.foldl (boundsFixture body.xf) b0
  let maxX := WORLD_TO_SCREEN b.maxX
  let minX := WORLD_TO_SCREEN b.minX
  let maxY := WORLD_TO_SCREEN b.maxY
  let minY := WORLD_TO_SCREEN b.minY
  let width := maxX - minX
  let height := maxY - minY
  let remY := s.height - maxY
  ⟨⟨minX, remY⟩, ⟨width, height⟩⟩

/-- The x and y intervals a fixture covers in world space: center minus and plus the
radius for a circle, each transformed vertex for a polygon. -/
def fixtureExtents (xform : b2Transform) (f : b2Fixture) : List (b2Vec2 × b2Vec2) :=
  match f.shape with
  | .circle m_p m_radius =>
    let center := b2Mul xform m_p
    [(⟨center.x - m_radius, center.y - m_radius⟩, ⟨center.x + m_radius, center.y + m_radius⟩)]
  | .polygon m_vertices => m_vertices.map (fun v => (b2Mul xform v, b2Mul xform v))

/-- Smallest element of a non-empty list of rationals (0 for the empty list). -/
def listMin : List ℚ → ℚ
  | [] => 0
  | a :: as => as.foldl min a

/-- Largest element of a non-empty list of rationals (0 for the empty list). -/
def listMax : List ℚ → ℚ
  | [] => 0
  | a :: as => as.foldl max a

/-- The rectangle of the specification: built from the true extrema of the
fixtures of the body. -/
def specBodyBounds (d : CCDirector) (body : b2Body) : CCRect :=
  let ext := body.fixtures.flatMap (fixtureExtents body.xf)
  let minX := listMin (ext.map (fun e => e.1.x))
  let maxX := listMax (ext.map (fun e => e.2.x))
  let minY := listMin (ext.map (fun e => e.1.y))
  let maxY := listMax (ext.map (fun e => e.2.y))
  ⟨⟨32 * minX, d.winSize.height - 32 * maxY⟩, ⟨32 * (maxX - minX), 32 * (maxY - minY)⟩⟩

/-! ## The layer state -/

/-- The render texture the brush is drawn into: its size, its position and the
brush positions visited so far, oldest first. -/
structure CCRenderTexture where
  width : ℚ
  height : ℚ
  position : CCPoint
  visits : List CCPoint
  deriving DecidableEq, Repr

/-- The fields of `LevelLayer` the stroke code reads and writes.
`brush_height` stands for `brush_->boundingBox().size.height`. -/
structure State where
  director : CCDirector
  brush_radius_ : ℚ
  brush_height : ℚ
  current_touch_id_ : ℤ
  render_target_ : Option CCRenderTexture
  points_being_drawn_ : List CCPoint
  box2d_density_ : ℚ
  box2d_friction_ : ℚ
  box2d_restitution_ : ℚ
  deriving DecidableEq, Repr

/-- What the touch handlers read from a `CCTouch`. -/
structure CCTouch where
  id : ℤ
  location : CCPoint
  previousLocation : CCPoint
  deriving DecidableEq, Repr

/-! ## Stroke capture -/

/-- `LevelLayer::CreateRenderTarget`; the `assert(!render_target_)` fails when
a target exists. -/
def CreateRenderTarget (self : State) : Option State :=
  match self.render_target_ with
  | some _ => none
  | none =>
    let win_size := self.director.winSize
    let rt : CCRenderTexture :=
      { width := win_size.width, height := win_size.height,
        position := ⟨win_size.width / 2, win_size.height / 2⟩, visits := [] }
    some { self with render_target_ := some rt }

/-- One `brush_->setPosition(p); brush_->visit()` inside `begin()`/`end()`. -/
def CCRenderTexture.visit (rt : CCRenderTexture) (p : CCPoint) : CCRenderTexture :=
  { rt with visits := rt.visits ++ [p] }

/-- `LevelLayer::DrawPoint`; there is no result when `render_target_` is null. -/
def DrawPoint (self : State) (location : CCPoint) : Option State :=
  let location := ClampBrushLocation self.director self.brush_radius_ location
  match self.render_target_ with
  | none => none
  | some rt =>
    some { self with
      render_target_ := some (rt.visit location),
      points_being_drawn_ := self.points_being_drawn_ ++ [location] }

/-- The brush position of pass `i` of the loop of `DrawLine`. -/
def stampAt (start end_ : CCPoint) (distance : ℚ) (i : ℕ) : CCPoint :=
  let difx := end_.x - start.x
  let dify := end_.y - start.y
  let delta := (i : ℚ) / distance
  ⟨start.x + (difx * delta), start.y + (dify * delta)⟩

/-- `LevelLayer::DrawLine`: `i` runs over `0 ≤ i < int(distance + 0.5)`. -/
def DrawLine (E : Extern) (self : State) (start end_ : CCPoint) : Option State :=
  let start := ClampBrushLocation self.director self.brush_radius_ start
  let end_ := ClampBrushLocation self.director self.brush_radius_ end_
  let distance := E.ccpDistance start end_
  match self.render_target_ with
  | none => none
  | some rt =>
    let rt := (List.range (toInt (distance + 1 / 2)).toNat).foldl
      (fun rt i => rt.visit (stampAt start end_ distance i)) rt
    some { self with
      render_target_ := some rt,
      points_being_drawn_ := self.points_being_drawn_ ++ [end_] }

/-- `LevelLayer::ccTouchBegan`, with the value it returns. -/
def ccTouchBegan (self : State) (touch : CCTouch) : Option (Bool × State) :=
  if self.current_touch_id_ ≠ -1 then some (false, self)
  else
    let self := { self with current_touch_id_ := touch.id }
    let created := match self.render_target_ with
      | none => CreateRenderTarget self
      | some _ => some self
    match created with
    | none => none
    | some self =>
      let self := { self with points_being_drawn_ := [] }
      let location := touch.location
      match DrawPoint self location with
      | none => none
      | some self => some (true, self)

/-- `LevelLayer::ccTouchMoved`; the `assert` on the touch id fails otherwise. -/
def ccTouchMoved (E : Extern) (self : State) (touch : CCTouch) : Option State :=
  if touch.id ≠ self.current_touch_id_ then none
  else
    let end_ := touch.location
    let start := touch.previousLocation
    DrawLine E self start end_

/-! ## Body synthesis -/

/-- `LevelLayer::AddShapeToBody`. -/
def AddShapeToBody (self : State) (body : b2Body) (shape : b2Shape) : b2Body :=
  body.CreateFixture
    { shape := shape, density := self.box2d_density_,
      friction := self.box2d_friction_, restitution := self.box2d_restitution_ }

/-- The circle shape `AddSphereToBody` builds. -/
def sphereShape (self : State) (body : b2Body) (location : CCPoint) : b2Shape :=
  .circle
    ⟨SCREEN_TO_WORLD location.x - body.GetPosition.x,
     SCREEN_TO_WORLD location.y - body.GetPosition.y⟩
    (SCREEN_TO_WORLD self.brush_radius_)

/-- `LevelLayer::AddSphereToBody`. -/
def AddSphereToBody (self : State) (body : b2Body) (location : CCPoint) : b2Body :=
  AddShapeToBody self body (sphereShape self body location)

/-- The box shape `AddLineToBody` builds; `abs` is the absolute value of the
float `distance`. -/
def lineShape (E : Extern) (self : State) (body : b2Body) (start end_ : CCPoint) : b2Shape :=
  let distance := E.ccpDistance start end_
  let sx := start.x
  let sy := start.y
  let ex := end_.x
  let ey := end_.y
  let dist_x := sx - ex
  let dist_y := sy - ey
  let angle := E.atan2 dist_y dist_x
  let posx := SCREEN_TO_WORLD ((sx + ex) / 2) - body.GetPosition.x
  let posy := SCREEN_TO_WORLD ((sy + ey) / 2) - body.GetPosition.y
  let width := SCREEN_TO_WORLD |distance|
  let height := SCREEN_TO_WORLD self.brush_height
  .polygon (E.SetAsBox (width / 2) (height / 2) ⟨posx, posy⟩ angle)

/-- `LevelLayer::AddLineToBody`. -/
def AddLineToBody (E : Extern) (self : State) (body : b2Body) (start end_ : CCPoint) : b2Body :=
  AddShapeToBody self body (lineShape E self body start end_)

/-- One pass of the loop of `CreatePhysicsBody` on the point `end_point`;
`isLast` is `iter == points_being_drawn_.end() - 1`.  The state of the loop is
the body and `start_point`. -/
def bodyLoopStep (E : Extern) (self : State) (min_box_length : ℤ)
    (st : b2Body × CCPoint) (end_point : CCPoint) (isLast : Bool) : b2Body × CCPoint :=
  let body := st.1
  let start_point := st.2
  let distance := E.ccpDistance start_point end_point
  if distance < (min_box_length : ℚ) ∧ isLast = false then (body, start_point)
  else (AddLineToBody E self body start_point end_point, end_point)

/-- The loop of `CreatePhysicsBody` over the points from `iter` to the end. -/
def bodyLoop (E : Extern) (self : State) (min_box_length : ℤ) :
    b2Body × CCPoint → List CCPoint → b2Body × CCPoint
  | st, [] => st
  | st, end_point :: rest =>
    bodyLoop E self min_box_length
      (bodyLoopStep E self min_box_length st end_point rest.isEmpty) rest

/-- `LevelLayer::CreatePhysicsBody`: the new body and the layer with the point
sequence cleared; the `assert` fails on an empty sequence. -/
def CreatePhysicsBody (E : Extern) (self : State) : Option (b2Body × State) :=
  match self.points_being_drawn_ with
  | [] => none
  | front :: tail =>
    let start_point := front
    let body := CreateBody ⟨SCREEN_TO_WORLD start_point.x, SCREEN_TO_WORLD start_point.y⟩
    let min_box_length : ℤ := toInt self.brush_radius_
    let body := AddSphereToBody self body start_point
    let body := AddSphereToBody self body ((front :: tail).getLast (List.cons_ne_nil _ _))
    let r := bodyLoop E self min_box_length (body, start_point) tail
    some (r.1, { self with points_being_drawn_ := [] })

/-- The `(start, end)` arguments of the calls of `AddLineToBody` the loop of
`CreatePhysicsBody` makes, in order, from `start_point` over the points left. -/
def lineCalls (E : Extern) (min_box_length : ℤ) :
    CCPoint → List CCPoint → List (CCPoint × CCPoint)
  | _, [] => []
  | start_point, end_point :: rest =>
    if E.ccpDistance start_point end_point < (min_box_length : ℚ) ∧ rest.isEmpty = false then
      lineCalls E min_box_length start_point rest
    else
      (start_point, end_point) :: lineCalls E min_box_length end_point rest

/-! ## Contact notification -/

/-- A call of `lua_stack_->executeFunctionByName(name, 2)` with the two
integers pushed before it. -/
structure LuaCall where
  name : String
  args : List ℤ
  deriving DecidableEq, Repr

/-- The contact, as far as the file reads it: the bodies of its two fixtures. -/
structure b2Contact where
  bodyA : b2Body
  bodyB : b2Body
  deriving DecidableEq, Repr

/-- `LevelLayer::LuaNotifyContact`.  `isFunction name` is whether the Lua
global `name` is a function; the result is the list of script calls made. -/
def LuaNotifyContact (isFunction : String → Bool) (contact : b2Contact)
    (function_name : String) : List LuaCall :=
  let is_func := isFunction function_name
  if !is_func then []
  else
    let body1 := contact.bodyA
    let body2 := contact.bodyB
    let tag1 := body1.userData
    let tag2 := body2.userData
    if tag1 = 0 ∨ tag2 = 0 then []
    else [{ name := function_name, args := [tag1, tag2] }]

/-- `LevelLayer::BeginContact`. -/
def BeginContact (isFunction : String → Bool) (contact : b2Contact) : List LuaCall :=
  LuaNotifyContact isFunction contact "BeginContact"

/-- `LevelLayer::EndContact`. -/
def EndContact (isFunction : String → Bool) (contact : b2Contact) : List LuaCall :=
  LuaNotifyContact isFunction contact "EndContact"

/-! ## A concrete instance of the library functions -/

/-- Rotation by the direction `(x, y)` followed by translation, as in Box2D
`SetAsBox(hx, hy, center, angle)`; the direction is normalised with the
rational square root. -/
def exactSetAsBox (hx hy : ℚ) (center : b2Vec2) (a : ℚ × ℚ) : List b2Vec2 :=
  let len := Rat.sqrt (a.2 * a.2 + a.1 * a.1)
  let c := if len = 0 then 1 else a.2 / len
  let s := if len = 0 then 0 else a.1 / len
  let xf : b2Transform := ⟨center, ⟨s, c⟩⟩
  [b2Mul xf ⟨-hx, -hy⟩, b2Mul xf ⟨hx, -hy⟩, b2Mul xf ⟨hx, hy⟩, b2Mul xf ⟨-hx, hy⟩]

/-- Library functions for evaluation: the distance is the rational square root
of the squared distance (the Euclidean distance whenever that is rational), an
angle is kept as the pair `(y, x)` given to `atan2`. -/
def exactExtern : Extern where
  Angle := ℚ × ℚ
  ccpDistance a b := Rat.sqrt ((a.x - b.x) * (a.x - b.x) + (a.y - b.y) * (a.y - b.y))
  ccpDistance_nonneg _ _ := Rat.sqrt_nonneg _
  atan2 y x := (y, x)
  SetAsBox := exactSetAsBox

/-! ## Concrete inputs used by the examples -/

/-- A layer with a 100 x 80 viewport at the origin, a brush of radius 8 and
height 16, the default fixture parameters, no active touch. -/
def demoLayer : State :=
  { director := ⟨⟨0, 0⟩, ⟨100, 80⟩, ⟨100, 80⟩⟩, brush_radius_ := 8, brush_height := 16,
    current_touch_id_ := -1, render_target_ := none, points_being_drawn_ := [],
    box2d_density_ := 1, box2d_friction_ := 1 / 5, box2d_restitution_ := 1 / 10 }

/-- A body at (-5, -5), not rotated, with one circle fixture of radius 1 at its
origin: it lies wholly at negative coordinates. -/
def negativeBody : b2Body :=
  { xf := ⟨⟨-5, -5⟩, ⟨0, 1⟩⟩, userData := 0,
    fixtures := [⟨.circle ⟨0, 0⟩ 1, 1, 1 / 5, 1 / 10⟩] }

/-- The render target of `demoLayer` before any stamp. -/
def demoTarget : CCRenderTexture :=
  { width := 100, height := 80, position := ⟨50, 40⟩, visits := [] }

/-- The layer `demoLayer` during a stroke of touch 1 that began at (8, 8). -/
def drawingLayer : State :=
  { demoLayer with
    current_touch_id_ := 1,
    render_target_ := some (demoTarget.visit ⟨8, 8⟩),
    points_being_drawn_ := [⟨8, 8⟩] }

/-! ## Helper lemmas -/

theorem clamp_x (d : CCDirector) (r : ℚ) (p : CCPoint) :
    (ClampBrushLocation d r p).x =
      min (max p.x (d.visibleOrigin.x + r)) (d.visibleOrigin.x + d.visibleSize.width - r) := by
  simp only [ClampBrushLocation, min_def, max_def]
  split_ifs <;> first | rfl | (exfalso; simp only [] at *; linarith) | (simp only [] at *; linarith)

theorem clamp_y (d : CCDirector) (r : ℚ) (p : CCPoint) :
    (ClampBrushLocation d r p).y =
      min (max p.y (d.visibleOrigin.y + r)) (d.visibleOrigin.y + d.visibleSize.height - r) := by
  simp only [ClampBrushLocation, min_def, max_def]
  split_ifs <;> first | rfl | (exfalso; simp only [] at *; linarith) | (simp only [] at *; linarith)

theorem clamp_in_area (d : CCDirector) (r : ℚ) (p : CCPoint)
    (hw : 2 * r ≤ d.visibleSize.width) (hh : 2 * r ≤ d.visibleSize.height) :
    InBrushArea d r (ClampBrushLocation d r p) := by
  unfold InBrushArea
  rw [clamp_x, clamp_y]
  refine ⟨?_, ?_, ?_, ?_⟩
  · exact le_min (le_max_right _ _) (by linarith)
  · exact min_le_right _ _
  · exact le_min (le_max_right _ _) (by linarith)
  · exact min_le_right _ _

theorem exact_dist_eq (a b : CCPoint) (d : ℚ) (hd : 0 ≤ d)
    (h : (a.x - b.x) * (a.x - b.x) + (a.y - b.y) * (a.y - b.y) = d * d) :
    exactExtern.ccpDistance a b = d := by
  show Rat.sqrt ((a.x - b.x) * (a.x - b.x) + (a.y - b.y) * (a.y - b.y)) = d
  rw [h, Rat.sqrt_eq, abs_of_nonneg hd]

theorem toInt_of_nonneg (q : ℚ) (h : 0 ≤ q) : toInt q = ⌊q⌋ := by
  unfold toInt
  rw [if_pos h]

theorem lineShape_congr (E : Extern) (self : State) (b b2 : b2Body) (h : b.xf = b2.xf)
    (s e : CCPoint) : lineShape E self b s e = lineShape E self b2 s e := by
  simp [lineShape, b2Body.GetPosition, h]

theorem bodyLoopStep_xf (E : Extern) (self : State) (m : ℤ) (st : b2Body × CCPoint)
    (e : CCPoint) (l : Bool) : (bodyLoopStep E self m st e l).1.xf = st.1.xf := by
  simp only [bodyLoopStep]
  split_ifs <;> rfl

/-- The fixtures the loop adds are the boxes of its `AddLineToBody` calls. -/
theorem bodyLoop_fixtures (E : Extern) (self : State) (m : ℤ) (pts : List CCPoint) :
    ∀ st : b2Body × CCPoint,
      (bodyLoop E self m st pts).1.xf = st.1.xf ∧
      (bodyLoop E self m st pts).1.fixtures
        = st.1.fixtures ++ (lineCalls E m st.2 pts).map (fun c =>
            (⟨lineShape E self st.1 c.1 c.2, self.box2d_density_, self.box2d_friction_,
              self.box2d_restitution_⟩ : b2Fixture)) := by
  induction pts with
  | nil => intro st; simp [bodyLoop, lineCalls]
  | cons e rest ih =>
    intro st
    obtain ⟨hx, hf⟩ := ih (bodyLoopStep E self m st e rest.isEmpty)
    have hxf := bodyLoopStep_xf E self m st e rest.isEmpty
    refine ⟨by rw [bodyLoop, hx, hxf], ?_⟩
    rw [bodyLoop, hf]
    have hc : ∀ c : CCPoint × CCPoint,
        lineShape E self (bodyLoopStep E self m st e rest.isEmpty).1 c.1 c.2
          = lineShape E self st.1 c.1 c.2 :=
      fun c => lineShape_congr E self _ _ hxf c.1 c.2
    simp only [hc]
    by_cases hcond : E.ccpDistance st.2 e < (m : ℚ) ∧ rest.isEmpty = false
    · have hs : bodyLoopStep E self m st e rest.isEmpty = (st.1, st.2) := by
        simp only [bodyLoopStep]
        rw [if_pos hcond]
      rw [hs, lineCalls, if_pos hcond]
    · have hs : bodyLoopStep E self m st e rest.isEmpty
          = (AddLineToBody E self st.1 st.2 e, e) := by
        simp only [bodyLoopStep]
        rw [if_neg hcond]
      rw [hs, lineCalls, if_neg hcond]
      simp [AddLineToBody, AddShapeToBody, b2Body.CreateFixture]

/-- The calls of `AddLineToBody` form a chain from the start to the last point. -/
theorem lineCalls_chain (E : Extern) (m : ℤ) (pts : List CCPoint) :
    ∀ start : CCPoint, pts ≠ [] →
      1 ≤ (lineCalls E m start pts).length ∧
      (lineCalls E m start pts).length ≤ pts.length ∧
      (lineCalls E m start pts).head?.map Prod.fst = some start ∧
      List.Chain' (fun a b : CCPoint × CCPoint => a.2 = b.1) (lineCalls E m start pts) ∧
      (lineCalls E m start pts).getLast?.map Prod.snd = pts.getLast? := by
  induction pts with
  | nil => intro _ h; exact absurd rfl h
  | cons e rest ih =>
    intro start _
    cases rest with
    | nil => simp [lineCalls]
    | cons e2 r =>
      have hne : (e2 :: r) ≠ [] := List.cons_ne_nil _ _
      by_cases hcond : E.ccpDistance start e < (m : ℚ)
      · obtain ⟨h1, h2, h3, h4, h5⟩ := ih start hne
        have e1 : lineCalls E m start (e :: e2 :: r) = lineCalls E m start (e2 :: r) := by
          rw [lineCalls]; simp [hcond]
        rw [e1]
        refine ⟨h1, ?_, h3, h4, ?_⟩
        · simp only [List.length_cons] at h2 ⊢; omega
        · rw [h5]; simp [List.getLast?_cons_cons]
      · obtain ⟨h1, h2, h3, h4, h5⟩ := ih e hne
        have e1 : lineCalls E m start (e :: e2 :: r)
            = (start, e) :: lineCalls E m e (e2 :: r) := by
          rw [lineCalls]; simp [hcond]
        rw [e1]
        refine ⟨by simp, ?_, by simp, ?_, ?_⟩
        · simp only [List.length_cons] at h2 ⊢; omega
        · rw [List.chain'_cons']
          refine ⟨?_, h4⟩
          intro y hy
          cases hl : lineCalls E m e (e2 :: r) with
          | nil => rw [hl] at hy; simp at hy
          | cons c cs =>
            rw [hl] at hy h3
            simp at hy h3
            rw [← hy, h3]
        · cases hl : lineCalls E m e (e2 :: r) with
          | nil => rw [hl] at h1; simp at h1
          | cons c cs =>
            rw [hl] at h5
            rw [List.getLast?_cons_cons, h5]
            simp [List.getLast?_cons_cons]

theorem foldl_visit (f : ℕ → CCPoint) (l : List ℕ) :
    ∀ rt : CCRenderTexture,
      l.foldl (fun rt i => rt.visit (f i)) rt = { rt with visits := rt.visits ++ l.map f } := by
  induction l with
  | nil => intro rt; simp
  | cons a l ih =>
    intro rt
    rw [List.foldl_cons, ih]
    simp [CCRenderTexture.visit]

/-- Inside the loop of `DrawLine` the ratio `i / distance` lies in `[0, 1]`. -/
theorem stamp_ratio (d : ℚ) (hd : 0 ≤ d) (i : ℕ) (hi : i < (toInt (d + 1 / 2)).toNat) :
    0 ≤ (i : ℚ) / d ∧ (i : ℚ) / d ≤ 1 := by
  rw [toInt_of_nonneg _ (by linarith)] at hi
  have h1 : (i : ℤ) < ⌊d + 1 / 2⌋ := by omega
  have h2 : ((i : ℤ) + 1 : ℤ) ≤ ⌊d + 1 / 2⌋ := by omega
  have h3 : (((i : ℤ) + 1 : ℤ) : ℚ) ≤ d + 1 / 2 := Int.le_floor.mp h2
  push_cast at h3
  have hpos : 0 < d := by
    have : (0 : ℚ) ≤ (i : ℚ) := Nat.cast_nonneg i
    linarith
  refine ⟨div_nonneg (Nat.cast_nonneg i) hd, ?_⟩
  rw [div_le_one hpos]
  linarith

/-- A point of the segment between two values of `[lo, hi]` is in `[lo, hi]`. -/
theorem segment_bounds (lo hi a b t : ℚ) (ha : lo ≤ a) (ha2 : a ≤ hi) (hb : lo ≤ b)
    (hb2 : b ≤ hi) (ht : 0 ≤ t) (ht1 : t ≤ 1) :
    lo ≤ a + (b - a) * t ∧ a + (b - a) * t ≤ hi := by
  constructor
  · nlinarith [mul_nonneg ht (sub_nonneg.mpr hb), mul_nonneg (sub_nonneg.mpr ht1)
      (sub_nonneg.mpr ha)]
  · nlinarith [mul_nonneg ht (sub_nonneg.mpr hb2), mul_nonneg (sub_nonneg.mpr ht1)
      (sub_nonneg.mpr ha2)]

/-! ### Extrema by folding -/

theorem foldl_min_le (l : List ℚ) : ∀ a : ℚ, ∀ x ∈ a :: l, l.foldl min a ≤ x := by
  induction l with
  | nil => intro a x hx; simp at hx; simp [hx]
  | cons b l ih =>
    intro a x hx
    rw [List.foldl_cons]
    simp only [List.mem_cons] at hx
    rcases hx with rfl | rfl | hx
    · exact le_trans (ih _ _ (List.mem_cons_self _ _)) (min_le_left _ _)
    · exact le_trans (ih _ _ (List.mem_cons_self _ _)) (min_le_right _ _)
    · exact ih _ _ (List.mem_cons_of_mem _ hx)

theorem foldl_min_mem (l : List ℚ) : ∀ a : ℚ, l.foldl min a ∈ a :: l := by
  induction l with
  | nil => intro a; simp
  | cons b l ih =>
    intro a
    rw [List.foldl_cons]
    have h := ih (min a b)
    simp only [List.mem_cons] at h ⊢
    rcases h with h | h
    · rcases min_choice a b with h2 | h2
      · left; rw [h, h2]
      · right; left; rw [h, h2]
    · right; right; exact h

theorem foldl_max_ge (l : List ℚ) : ∀ a : ℚ, ∀ x ∈ a :: l, x ≤ l.foldl max a := by
  induction l with
  | nil => intro a x hx; simp at hx; simp [hx]
  | cons b l ih =>
    intro a x hx
    rw [List.foldl_cons]
    simp only [List.mem_cons] at hx
    rcases hx with rfl | rfl | hx
    · exact le_trans (le_max_left _ _) (ih _ _ (List.mem_cons_self _ _))
    · exact le_trans (le_max_right _ _) (ih _ _ (List.mem_cons_self _ _))
    · exact ih _ _ (List.mem_cons_of_mem _ hx)

theorem foldl_max_mem (l : List ℚ) : ∀ a : ℚ, l.foldl max a ∈ a :: l := by
  induction l with
  | nil => intro a; simp
  | cons b l ih =>
    intro a
    rw [List.foldl_cons]
    have h := ih (max a b)
    simp only [List.mem_cons] at h ⊢
    rcases h with h | h
    · rcases max_choice a b with h2 | h2
      · left; rw [h, h2]
      · right; left; rw [h, h2]
    · right; right; exact h

/-- Folding `min` from a start value that is no smaller than every element of a
non-empty list gives the least element, whatever the order of the list. -/
theorem foldl_min_eq_listMin (l l2 : List ℚ) (a : ℚ) (hne : l2 ≠ [])
    (hperm : ∀ x, x ∈ l ↔ x ∈ l2) (ha : ∀ x ∈ l2, x ≤ a) :
    l.foldl min a = listMin l2 := by
  cases l2 with
  | nil => exact absurd rfl hne
  | cons b t =>
    show l.foldl min a = t.foldl min b
    apply le_antisymm
    · exact foldl_min_le l a _ (List.mem_cons_of_mem _ ((hperm _).mpr (foldl_min_mem t b)))
    · have h := foldl_min_mem l a
      simp only [List.mem_cons] at h
      rcases h with h | h
      · rw [h]; exact ha _ (foldl_min_mem t b)
      · exact foldl_min_le t b _ ((hperm _).mp h)

/-- Folding `max` from a start value that some element of the list reaches
gives the greatest element, whatever the order of the list. -/
theorem foldl_max_eq_listMax (l l2 : List ℚ) (a : ℚ) (hne : l2 ≠ [])
    (hperm : ∀ x, x ∈ l ↔ x ∈ l2) (ha : ∃ x ∈ l2, a ≤ x) :
    l.foldl max a = listMax l2 := by
  cases l2 with
  | nil => exact absurd rfl hne
  | cons b t =>
    show l.foldl max a = t.foldl max b
    apply le_antisymm
    · have h := foldl_max_mem l a
      simp only [List.mem_cons] at h
      rcases h with h | h
      · rw [h]
        obtain ⟨x, hx, hax⟩ := ha
        exact le_trans hax (foldl_max_ge t b x hx)
      · exact foldl_max_ge t b _ ((hperm _).mp h)
    · exact foldl_max_ge l a _ (List.mem_cons_of_mem _ ((hperm _).mpr (foldl_max_mem t b)))

theorem lt_ite_eq_min (a b : ℚ) : (if a < b then a else b) = min b a := by
  rw [min_def]
  split_ifs with h1 h2 h2
  · exact le_antisymm (le_of_lt h1) h2
  · rfl
  · rfl
  · exact absurd (lt_of_not_le h2) h1

theorem gt_ite_eq_max (a b : ℚ) : (if a > b then a else b) = max b a := by
  rw [max_def]
  split_ifs with h1 h2 h2
  · rfl
  · exact absurd (le_of_lt h1) h2
  · exact le_antisymm h2 (not_lt.mp h1)
  · rfl

/-- The running extrema after the fixture loop, as folds of `min` and `max`
over the extents of the fixtures visited. -/
theorem boundsFixture_fold (xf : b2Transform) (fs : List b2Fixture) :
    ∀ b : Bounds,
      fs.foldl (boundsFixture xf) b =
        ⟨((fs.flatMap (fixtureExtents xf)).map (fun e => e.1.x)).foldl min b.minX,
         ((fs.flatMap (fixtureExtents xf)).map (fun e => e.2.x)).foldl max b.maxX,
         ((fs.flatMap (fixtureExtents xf)).map (fun e => e.1.y)).foldl min b.minY,
         ((fs.flatMap (fixtureExtents xf)).map (fun e => e.2.y)).foldl max b.maxY⟩ := by
  have hv : ∀ (vs : List b2Vec2) (b : Bounds),
      vs.foldl (boundsVertex xf) b =
        ⟨(vs.map (fun v => (b2Mul xf v).x)).foldl min b.minX,
         (vs.map (fun v => (b2Mul xf v).x)).foldl max b.maxX,
         (vs.map (fun v => (b2Mul xf v).y)).foldl min b.minY,
         (vs.map (fun v => (b2Mul xf v).y)).foldl max b.maxY⟩ := by
    intro vs
    induction vs with
    | nil => intro b; rfl
    | cons v vs ih =>
      intro b
      rw [List.foldl_cons, ih]
      simp only [boundsVertex, lt_ite_eq_min, gt_ite_eq_max, List.map_cons, List.foldl_cons]
  induction fs with
  | nil => intro b; rfl
  | cons f fs ih =>
    intro b
    rw [List.foldl_cons, ih]
    cases f with
    | mk shape dn fr rs =>
      cases shape with
      | circle p r =>
        simp only [boundsFixture, boundsCircle, lt_ite_eq_min, gt_ite_eq_max,
          List.flatMap_cons, fixtureExtents, List.map_append, List.foldl_append,
          List.map_cons, List.map_nil, List.foldl_cons, List.foldl_nil]
      | polygon vs =>
        simp only [boundsFixture, hv, List.flatMap_cons, fixtureExtents, List.map_append,
          List.foldl_append, List.map_map, Function.comp_def]

/-- Where `CalcBodyBounds` is right: for a body with a fixture extent, no extent
below `FLT_MAX` missing, and some extent reaching a non-negative x and some a
non-negative y, the rectangle is the one of the true extrema. -/
theorem calcBodyBounds_eq_spec (d : CCDirector) (body : b2Body)
    (hne : body.fixtures.flatMap (fixtureExtents body.xf) ≠ [])
    (hlo : ∀ e ∈ body.fixtures.flatMap (fixtureExtents body.xf),
      e.1.x ≤ FLT_MAX ∧ e.1.y ≤ FLT_MAX)
    (hx : ∃ e ∈ body.fixtures.flatMap (fixtureExtents body.xf), 0 ≤ e.2.x)
    (hy : ∃ e ∈ body.fixtures.flatMap (fixtureExtents body.xf), 0 ≤ e.2.y) :
    CalcBodyBounds d body = specBodyBounds d body := by
  have hperm : ∀ (g : b2Vec2 × b2Vec2 → ℚ) (x : ℚ),
      x ∈ (body.fixtures.reverse.flatMap (fixtureExtents body.xf)).map g
        ↔ x ∈ (body.fixtures.flatMap (fixtureExtents body.xf)).map g := by
    intro g x
    simp [List.mem_map, List.mem_flatMap]
  have hne2 : ∀ g : b2Vec2 × b2Vec2 → ℚ,
      (body.fixtures.flatMap (fixtureExtents body.xf)).map g ≠ [] := by
    intro g h
    exact hne (List.map_eq_nil_iff.mp h)
  have e1 := foldl_min_eq_listMin _ _ FLT_MAX (hne2 (fun e => e.1.x))
    (hperm (fun e => e.1.x)) (by
      intro x hx
      obtain ⟨e, he, rfl⟩ := List.mem_map.mp hx
      exact (hlo e he).1)
  have e2 := foldl_min_eq_listMin _ _ FLT_MAX (hne2 (fun e => e.1.y))
    (hperm (fun e => e.1.y)) (by
      intro x hx
      obtain ⟨e, he, rfl⟩ := List.mem_map.mp hx
      exact (hlo e he).2)
  have e3 := foldl_max_eq_listMax _ _ 0 (hne2 (fun e => e.2.x))
    (hperm (fun e => e.2.x)) (by
      obtain ⟨e, he, h0⟩ := hx
      exact ⟨e.2.x, List.mem_map.mpr ⟨e, he, rfl⟩, h0⟩)
  have e4 := foldl_max_eq_listMax _ _ 0 (hne2 (fun e => e.2.y))
    (hperm (fun e => e.2.y)) (by
      obtain ⟨e, he, h0⟩ := hy
      exact ⟨e.2.y, List.mem_map.mpr ⟨e, he, rfl⟩, h0⟩)
  simp only [CalcBodyBounds, specBodyBounds, b2Body.GetFixtureList, boundsFixture_fold,
    e1, e2, e3, e4, WORLD_TO_SCREEN, PTM_RATIO]
  congr 2 <;> ring

/-! ## Claims on `ClampBrushLocation` -/

/-- C2 (as amended): when the viewport is at least `2 * brush_radius` wide and
high, `ClampBrushLocation` leaves every point inside
`[origin + radius, origin + size - radius]` on both axes. -/
theorem C2_clamp_in_range (d : CCDirector) (brush_radius : ℚ) (p : CCPoint)
    (hw : 2 * brush_radius ≤ d.visibleSize.width)
    (hh : 2 * brush_radius ≤ d.visibleSize.height) :
    d.visibleOrigin.x + brush_radius ≤ (ClampBrushLocation d brush_radius p).x ∧
    (ClampBrushLocation d brush_radius p).x
      ≤ d.visibleOrigin.x + d.visibleSize.width - brush_radius ∧
    d.visibleOrigin.y + brush_radius ≤ (ClampBrushLocation d brush_radius p).y ∧
    (ClampBrushLocation d brush_radius p).y
      ≤ d.visibleOrigin.y + d.visibleSize.height - brush_radius :=
  clamp_in_area d brush_radius p hw hh

/-- C2 witness: a 100 x 80 viewport at the origin, brush radius 8, a point
outside the viewport. -/
theorem C2_clamp_in_range_witness :
    (0 : ℚ) + 8 ≤ (ClampBrushLocation ⟨⟨0, 0⟩, ⟨100, 80⟩, ⟨100, 80⟩⟩ 8 ⟨-3, 200⟩).x ∧
    (ClampBrushLocation ⟨⟨0, 0⟩, ⟨100, 80⟩, ⟨100, 80⟩⟩ 8 ⟨-3, 200⟩).x ≤ 0 + 100 - 8 ∧
    (0 : ℚ) + 8 ≤ (ClampBrushLocation ⟨⟨0, 0⟩, ⟨100, 80⟩, ⟨100, 80⟩⟩ 8 ⟨-3, 200⟩).y ∧
    (ClampBrushLocation ⟨⟨0, 0⟩, ⟨100, 80⟩, ⟨100, 80⟩⟩ 8 ⟨-3, 200⟩).y ≤ 0 + 80 - 8 :=
  C2_clamp_in_range ⟨⟨0, 0⟩, ⟨100, 80⟩, ⟨100, 80⟩⟩ 8 ⟨-3, 200⟩ (by norm_num) (by norm_num)

/-- C2 counterexample: in a 10 x 10 viewport with brush radius 8 the point
(5, 5) is moved to (2, 2), which is below the lower bound `origin + radius = 8`
of the claimed range. -/
theorem C2_counterexample :
    ClampBrushLocation ⟨⟨0, 0⟩, ⟨10, 10⟩, ⟨10, 10⟩⟩ 8 ⟨5, 5⟩ = ⟨2, 2⟩ ∧
    ¬ ((0 : ℚ) + 8 ≤ (ClampBrushLocation ⟨⟨0, 0⟩, ⟨10, 10⟩, ⟨10, 10⟩⟩ 8 ⟨5, 5⟩).x) := by
  have h : ClampBrushLocation ⟨⟨0, 0⟩, ⟨10, 10⟩, ⟨10, 10⟩⟩ 8 ⟨5, 5⟩ = ⟨2, 2⟩ := by
    simp only [ClampBrushLocation]; norm_num
  refine ⟨h, ?_⟩
  rw [h]; norm_num

/-- C8: `ClampBrushLocation` is idempotent for every viewport origin, viewport
size, brush radius and point. -/
theorem C8_clamp_idempotent (d : CCDirector) (brush_radius : ℚ) (p : CCPoint) :
    ClampBrushLocation d brush_radius (ClampBrushLocation d brush_radius p)
      = ClampBrushLocation d brush_radius p := by
  have hx := clamp_x d brush_radius (ClampBrushLocation d brush_radius p)
  have hy := clamp_y d brush_radius (ClampBrushLocation d brush_radius p)
  rw [clamp_x d brush_radius p] at hx
  rw [clamp_y d brush_radius p] at hy
  have ex : (ClampBrushLocation d brush_radius (ClampBrushLocation d brush_radius p)).x
      = (ClampBrushLocation d brush_radius p).x := by
    rw [hx, clamp_x]
    simp only [min_def, max_def]
    split_ifs <;> linarith
  have ey : (ClampBrushLocation d brush_radius (ClampBrushLocation d brush_radius p)).y
      = (ClampBrushLocation d brush_radius p).y := by
    rw [hy, clamp_y]
    simp only [min_def, max_def]
    split_ifs <;> linarith
  cases h1 : ClampBrushLocation d brush_radius (ClampBrushLocation d brush_radius p)
  cases h2 : ClampBrushLocation d brush_radius p
  rw [h1, h2] at ex ey
  simp only at ex ey
  rw [ex, ey]

/-! ## Claims on `ccTouchBegan` and `LuaNotifyContact` -/

/-- C6: when a stroke is active (`current_touch_id_` is not -1) `ccTouchBegan`
returns false and the layer state it leaves is the state it was given: touch
id, point sequence and render target (hence its brush stamps) are unchanged. -/
theorem C6_touch_began_rejected (self : State) (touch : CCTouch)
    (h : self.current_touch_id_ ≠ -1) :
    ccTouchBegan self touch = some (false, self) ∧
    (ccTouchBegan self touch).map (fun r => r.2.current_touch_id_)
      = some self.current_touch_id_ ∧
    (ccTouchBegan self touch).map (fun r => r.2.points_being_drawn_)
      = some self.points_being_drawn_ ∧
    (ccTouchBegan self touch).map (fun r => r.2.render_target_)
      = some self.render_target_ := by
  have e : ccTouchBegan self touch = some (false, self) := by
    unfold ccTouchBegan
    rw [if_pos h]
  rw [e]
  exact ⟨rfl, rfl, rfl, rfl⟩

/-- C6 witness: touch 7 is active with two points captured and one stamp
drawn; a second touch 9 is rejected. -/
theorem C6_touch_began_rejected_witness :
    ccTouchBegan
      { director := ⟨⟨0, 0⟩, ⟨100, 80⟩, ⟨100, 80⟩⟩, brush_radius_ := 8, brush_height := 16,
        current_touch_id_ := 7,
        render_target_ := some ⟨100, 80, ⟨50, 40⟩, [⟨10, 10⟩]⟩,
        points_being_drawn_ := [⟨10, 10⟩, ⟨20, 10⟩],
        box2d_density_ := 1, box2d_friction_ := 1 / 5, box2d_restitution_ := 1 / 10 }
      ⟨9, ⟨30, 30⟩, ⟨30, 30⟩⟩
    = some (false,
      { director := ⟨⟨0, 0⟩, ⟨100, 80⟩, ⟨100, 80⟩⟩, brush_radius_ := 8, brush_height := 16,
        current_touch_id_ := 7,
        render_target_ := some ⟨100, 80, ⟨50, 40⟩, [⟨10, 10⟩]⟩,
        points_being_drawn_ := [⟨10, 10⟩, ⟨20, 10⟩],
        box2d_density_ := 1, box2d_friction_ := 1 / 5, box2d_restitution_ := 1 / 10 }) :=
  (C6_touch_began_rejected _ ⟨9, ⟨30, 30⟩, ⟨30, 30⟩⟩ (by decide)).1

/-- C5: `LuaNotifyContact` makes a script call exactly when the script defines
the named function and both tags are non-zero; the call then is the named
function with the arguments (tag of body A, tag of body B); in every other case,
an undefined function included, it makes no call.  Tags (0, 5) give no call and
tags (3, 5) give the call with (3, 5). -/
theorem C5_contact_callback (isFunction : String → Bool) (contact : b2Contact)
    (function_name : String) :
    (LuaNotifyContact isFunction contact function_name
      = if isFunction function_name = true ∧ contact.bodyA.userData ≠ 0
            ∧ contact.bodyB.userData ≠ 0
        then [⟨function_name, [contact.bodyA.userData, contact.bodyB.userData]⟩]
        else []) ∧
    (LuaNotifyContact isFunction contact function_name ≠ []
      ↔ (isFunction function_name = true ∧ contact.bodyA.userData ≠ 0
            ∧ contact.bodyB.userData ≠ 0)) ∧
    LuaNotifyContact (fun _ => true)
      ⟨{ CreateBody ⟨0, 0⟩ with userData := 0 }, { CreateBody ⟨0, 0⟩ with userData := 5 }⟩
      function_name = [] ∧
    LuaNotifyContact (fun _ => true)
      ⟨{ CreateBody ⟨0, 0⟩ with userData := 3 }, { CreateBody ⟨0, 0⟩ with userData := 5 }⟩
      function_name = [⟨function_name, [3, 5]⟩] ∧
    BeginContact (fun _ => false) contact = [] ∧
    EndContact (fun _ => false) contact = [] := by
  have main : LuaNotifyContact isFunction contact function_name
      = if isFunction function_name = true ∧ contact.bodyA.userData ≠ 0
            ∧ contact.bodyB.userData ≠ 0
        then [⟨function_name, [contact.bodyA.userData, contact.bodyB.userData]⟩]
        else [] := by
    unfold LuaNotifyContact
    cases hf : isFunction function_name
    · simp
    · by_cases h1 : contact.bodyA.userData = 0
      · simp [h1]
      · by_cases h2 : contact.bodyB.userData = 0
        · simp [h2]
        · simp [h1, h2]
  refine ⟨main, ?_, ?_, ?_, ?_, ?_⟩
  · rw [main]
    split_ifs with h
    · simp [h]
    · simp [h]
  · simp [LuaNotifyContact]
  · simp [LuaNotifyContact]
  · simp [BeginContact, LuaNotifyContact]
  · simp [EndContact, LuaNotifyContact]

/-! ## Claims on `CreatePhysicsBody`: short strokes -/

/-- C7: a stroke of the single point `p0` gives a body placed at `p0 / 32`
whose fixtures are exactly two circles and no box, both circles at the local
offset (0, 0) with radius `brush_radius_ / 32`; the point sequence is cleared. -/
theorem C7_one_point_stroke (E : Extern) (self : State) (p0 : CCPoint) :
    ∃ body : b2Body,
      CreatePhysicsBody E { self with points_being_drawn_ := [p0] }
        = some (body, { self with points_being_drawn_ := [] }) ∧
      body.GetPosition = ⟨p0.x / 32, p0.y / 32⟩ ∧
      body.fixtures.map (fun f => f.shape)
        = [.circle ⟨0, 0⟩ (self.brush_radius_ / 32), .circle ⟨0, 0⟩ (self.brush_radius_ / 32)] ∧
      (body.fixtures.filter b2Fixture.isCircle).length = 2 ∧
      (body.fixtures.filter b2Fixture.isPolygon).length = 0 := by
  refine ⟨_, rfl, ?_, ?_, ?_, ?_⟩
  · simp [bodyLoop, AddSphereToBody, AddShapeToBody, b2Body.CreateFixture, CreateBody,
      b2Body.GetPosition, SCREEN_TO_WORLD, PTM_RATIO]
  · simp [bodyLoop, AddSphereToBody, AddShapeToBody, b2Body.CreateFixture, CreateBody,
      b2Body.GetPosition, SCREEN_TO_WORLD, PTM_RATIO, sphereShape]
  · simp [bodyLoop, AddSphereToBody, AddShapeToBody, b2Body.CreateFixture, CreateBody,
      b2Fixture.isCircle, sphereShape]
  · simp [bodyLoop, AddSphereToBody, AddShapeToBody, b2Body.CreateFixture, CreateBody,
      b2Fixture.isPolygon, sphereShape]

/-- C4: a stroke of two points `p0`, `p1` at distance at least the brush radius
gives exactly two circles and one box; the box is
`SetAsBox(distance / 2 / 32, brush_height / 2 / 32, center, angle)` with center
`(p0 + p1) / 2 / 32 - p0 / 32` and angle `atan2(p0.y - p1.y, p0.x - p1.x)`. -/
theorem C4_two_point_stroke (E : Extern) (self : State) (p0 p1 : CCPoint)
    (_h : self.brush_radius_ ≤ E.ccpDistance p0 p1) :
    ∃ body : b2Body,
      CreatePhysicsBody E { self with points_being_drawn_ := [p0, p1] }
        = some (body, { self with points_being_drawn_ := [] }) ∧
      (body.fixtures.filter b2Fixture.isCircle).length = 2 ∧
      (body.fixtures.filter b2Fixture.isPolygon).length = 1 ∧
      (body.fixtures.filter b2Fixture.isPolygon).map (fun f => f.shape)
        = [.polygon (E.SetAsBox (E.ccpDistance p0 p1 / 2 / 32) (self.brush_height / 2 / 32)
            ⟨(p0.x + p1.x) / 2 / 32 - p0.x / 32, (p0.y + p1.y) / 2 / 32 - p0.y / 32⟩
            (E.atan2 (p0.y - p1.y) (p0.x - p1.x)))] := by
  have hd : |E.ccpDistance p0 p1| = E.ccpDistance p0 p1 :=
    abs_of_nonneg (E.ccpDistance_nonneg p0 p1)
  have e1 : E.ccpDistance p0 p1 / 32 / 2 = E.ccpDistance p0 p1 / 2 / 32 := by ring
  have e2 : self.brush_height / 32 / 2 = self.brush_height / 2 / 32 := by ring
  refine ⟨_, rfl, ?_, ?_, ?_⟩
  · simp [bodyLoop, bodyLoopStep, AddLineToBody, AddSphereToBody, AddShapeToBody,
      b2Body.CreateFixture, CreateBody, b2Fixture.isCircle, sphereShape, lineShape,
      List.filter]
  · simp [bodyLoop, bodyLoopStep, AddLineToBody, AddSphereToBody, AddShapeToBody,
      b2Body.CreateFixture, CreateBody, b2Fixture.isPolygon, sphereShape, lineShape,
      List.filter]
  · simp [bodyLoop, bodyLoopStep, AddLineToBody, AddSphereToBody, AddShapeToBody,
      b2Body.CreateFixture, CreateBody, b2Fixture.isPolygon, sphereShape, lineShape,
      List.filter, b2Body.GetPosition, SCREEN_TO_WORLD, PTM_RATIO, hd, e1, e2]

/-- C4 witness: the stroke (0, 0), (3, 4) of length 5 with brush radius 4. -/
theorem C4_two_point_stroke_witness :
    (({ demoLayer with brush_radius_ := 4 } : State).brush_radius_
        ≤ exactExtern.ccpDistance ⟨0, 0⟩ ⟨3, 4⟩) ∧
    ∃ body : b2Body,
      CreatePhysicsBody exactExtern
          { ({ demoLayer with brush_radius_ := 4 } : State) with
            points_being_drawn_ := [⟨0, 0⟩, ⟨3, 4⟩] }
        = some (body,
          { ({ demoLayer with brush_radius_ := 4 } : State) with points_being_drawn_ := [] }) ∧
      (body.fixtures.filter b2Fixture.isCircle).length = 2 ∧
      (body.fixtures.filter b2Fixture.isPolygon).length = 1 ∧
      (body.fixtures.filter b2Fixture.isPolygon).map (fun f => f.shape)
        = [.polygon (exactExtern.SetAsBox (exactExtern.ccpDistance ⟨0, 0⟩ ⟨3, 4⟩ / 2 / 32)
            (({ demoLayer with brush_radius_ := 4 } : State).brush_height / 2 / 32)
            ⟨((0 : ℚ) + 3) / 2 / 32 - 0 / 32, ((0 : ℚ) + 4) / 2 / 32 - 0 / 32⟩
            (exactExtern.atan2 ((0 : ℚ) - 4) ((0 : ℚ) - 3)))] :=
  have h : (({ demoLayer with brush_radius_ := 4 } : State).brush_radius_
      ≤ exactExtern.ccpDistance ⟨0, 0⟩ ⟨3, 4⟩) := by
    rw [exact_dist_eq ⟨0, 0⟩ ⟨3, 4⟩ 5 (by norm_num) (by norm_num)]
    norm_num
  ⟨h, C4_two_point_stroke exactExtern { demoLayer with brush_radius_ := 4 } ⟨0, 0⟩ ⟨3, 4⟩ h⟩

/-! ## `CalcBodyBounds` -/

/-- C3, the code at a body lying at negative coordinates: for the circle of
radius 1 centred at (-5, -5) in a window of height 600 the true extrema are
minX = -6, maxX = -4, minY = -6, maxY = -4, so the rectangle of the claim is
origin (-192, 728), size 64 x 64; `CalcBodyBounds` keeps both maxima at their
start value 0 and returns origin (-192, 600), size 192 x 192. -/
theorem C3_calc_body_bounds_negative :
    CalcBodyBounds ⟨⟨0, 0⟩, ⟨800, 600⟩, ⟨800, 600⟩⟩ negativeBody
      = ⟨⟨-192, 600⟩, ⟨192, 192⟩⟩ ∧
    specBodyBounds ⟨⟨0, 0⟩, ⟨800, 600⟩, ⟨800, 600⟩⟩ negativeBody
      = ⟨⟨-192, 728⟩, ⟨64, 64⟩⟩ ∧
    CalcBodyBounds ⟨⟨0, 0⟩, ⟨800, 600⟩, ⟨800, 600⟩⟩ negativeBody
      ≠ specBodyBounds ⟨⟨0, 0⟩, ⟨800, 600⟩, ⟨800, 600⟩⟩ negativeBody := by
  have h1 : CalcBodyBounds ⟨⟨0, 0⟩, ⟨800, 600⟩, ⟨800, 600⟩⟩ negativeBody
      = ⟨⟨-192, 600⟩, ⟨192, 192⟩⟩ := by
    simp [CalcBodyBounds, negativeBody, b2Body.GetFixtureList, boundsFixture, boundsCircle,
      b2Mul, FLT_MAX, WORLD_TO_SCREEN, PTM_RATIO]
    norm_num
  have h2 : specBodyBounds ⟨⟨0, 0⟩, ⟨800, 600⟩, ⟨800, 600⟩⟩ negativeBody
      = ⟨⟨-192, 728⟩, ⟨64, 64⟩⟩ := by
    simp [specBodyBounds, negativeBody, fixtureExtents, listMin, listMax, b2Mul]
    norm_num
  refine ⟨h1, h2, ?_⟩
  rw [h1, h2]
  decide

/-! ## Claims on `CreatePhysicsBody`: the segment loop -/

/-- C1 (as amended): the threshold of the loop of `CreatePhysicsBody` is the
brush radius truncated to an integer.  A pass whose pair (segment start,
current point) has a distance below that threshold and is not the last pair
adds no fixture and keeps the segment start; every other pass adds exactly one
box from the segment start to the current point and moves the segment start to
that point.  For three points whose first distance is below the threshold the
body has the two circles and exactly one box, from `p0` to `p2`. -/
theorem C1_segment_merge (E : Extern) (self : State) (body : b2Body)
    (start_point end_point : CCPoint) (isLast : Bool) (p0 p1 p2 : CCPoint)
    (h : E.ccpDistance p0 p1 < (toInt self.brush_radius_ : ℚ)) :
    (bodyLoopStep E self (toInt self.brush_radius_) (body, start_point) end_point isLast
      = if E.ccpDistance start_point end_point < (toInt self.brush_radius_ : ℚ)
            ∧ isLast = false
        then (body, start_point)
        else ({ body with fixtures := body.fixtures ++
                [⟨lineShape E self body start_point end_point, self.box2d_density_,
                  self.box2d_friction_, self.box2d_restitution_⟩] }, end_point)) ∧
    ∃ b : b2Body,
      CreatePhysicsBody E { self with points_being_drawn_ := [p0, p1, p2] }
        = some (b, { self with points_being_drawn_ := [] }) ∧
      (b.fixtures.filter b2Fixture.isCircle).length = 2 ∧
      (b.fixtures.filter b2Fixture.isPolygon).map (fun f => f.shape)
        = [lineShape E self (CreateBody ⟨p0.x / 32, p0.y / 32⟩) p0 p2] := by
  refine ⟨rfl, _, rfl, ?_, ?_⟩
  · simp [bodyLoop, bodyLoopStep, h, AddLineToBody, AddSphereToBody, AddShapeToBody,
      b2Body.CreateFixture, CreateBody, b2Fixture.isCircle, sphereShape, lineShape,
      List.filter]
  · simp [bodyLoop, bodyLoopStep, h, AddLineToBody, AddSphereToBody, AddShapeToBody,
      b2Body.CreateFixture, CreateBody, b2Fixture.isPolygon, sphereShape, lineShape,
      List.filter, b2Body.GetPosition, SCREEN_TO_WORLD, PTM_RATIO]

/-- C1 witness: brush radius 8, the points (0, 0), (3, 4), (30, 40): the first
distance is 5; the pass shown is the one on (3, 4). -/
theorem C1_segment_merge_witness :
    (exactExtern.ccpDistance ⟨0, 0⟩ ⟨3, 4⟩ < (toInt demoLayer.brush_radius_ : ℚ)) ∧
    (bodyLoopStep exactExtern demoLayer (toInt demoLayer.brush_radius_)
        (CreateBody ⟨0, 0⟩, ⟨0, 0⟩) ⟨3, 4⟩ false
      = if exactExtern.ccpDistance ⟨0, 0⟩ ⟨3, 4⟩ < (toInt demoLayer.brush_radius_ : ℚ)
            ∧ false = false
        then (CreateBody ⟨0, 0⟩, ⟨0, 0⟩)
        else ({ CreateBody ⟨0, 0⟩ with fixtures := (CreateBody ⟨0, 0⟩).fixtures ++
                [⟨lineShape exactExtern demoLayer (CreateBody ⟨0, 0⟩) ⟨0, 0⟩ ⟨3, 4⟩,
                  demoLayer.box2d_density_, demoLayer.box2d_friction_,
                  demoLayer.box2d_restitution_⟩] }, ⟨3, 4⟩)) ∧
    ∃ b : b2Body,
      CreatePhysicsBody exactExtern
          { demoLayer with points_being_drawn_ := [⟨0, 0⟩, ⟨3, 4⟩, ⟨30, 40⟩] }
        = some (b, { demoLayer with points_being_drawn_ := [] }) ∧
      (b.fixtures.filter b2Fixture.isCircle).length = 2 ∧
      (b.fixtures.filter b2Fixture.isPolygon).map (fun f => f.shape)
        = [lineShape exactExtern demoLayer (CreateBody ⟨(0 : ℚ) / 32, (0 : ℚ) / 32⟩)
            ⟨0, 0⟩ ⟨30, 40⟩] :=
  have h : exactExtern.ccpDistance ⟨0, 0⟩ ⟨3, 4⟩ < (toInt demoLayer.brush_radius_ : ℚ) := by
    rw [exact_dist_eq ⟨0, 0⟩ ⟨3, 4⟩ 5 (by norm_num) (by norm_num)]
    simp [toInt, demoLayer]
    norm_num
  ⟨h, C1_segment_merge exactExtern demoLayer (CreateBody ⟨0, 0⟩) ⟨0, 0⟩ ⟨3, 4⟩ false
    ⟨0, 0⟩ ⟨3, 4⟩ ⟨30, 40⟩ h⟩

/-- C1 counterexample: brush radius 5 / 2 and the collinear points (0, 0),
(2, 0), (10, 0).  The first distance, 2, is below the brush radius, yet the
threshold is `int(2.5) = 2`, the first pair gets a box of its own and the body
has two boxes, not the single box from (0, 0) to (10, 0). -/
theorem C1_counterexample :
    exactExtern.ccpDistance ⟨0, 0⟩ ⟨2, 0⟩ < (5 / 2 : ℚ) ∧
    (CreatePhysicsBody exactExtern
        { demoLayer with brush_radius_ := 5 / 2,
                         points_being_drawn_ := [⟨0, 0⟩, ⟨2, 0⟩, ⟨10, 0⟩] }).map
      (fun r => (r.1.fixtures.filter b2Fixture.isPolygon).map (fun f => f.shape))
      = some
        [lineShape exactExtern demoLayer (CreateBody ⟨0, 0⟩) ⟨0, 0⟩ ⟨2, 0⟩,
         lineShape exactExtern demoLayer (CreateBody ⟨0, 0⟩) ⟨2, 0⟩ ⟨10, 0⟩] := by
  have d1 : exactExtern.ccpDistance ⟨0, 0⟩ ⟨2, 0⟩ = 2 :=
    exact_dist_eq ⟨0, 0⟩ ⟨2, 0⟩ 2 (by norm_num) (by norm_num)
  have d2 : exactExtern.ccpDistance ⟨2, 0⟩ ⟨10, 0⟩ = 8 :=
    exact_dist_eq ⟨2, 0⟩ ⟨10, 0⟩ 8 (by norm_num) (by norm_num)
  have t : toInt (5 / 2) = 2 := by
    rw [toInt_of_nonneg _ (by norm_num)]
    norm_num [Int.floor_eq_iff]
  refine ⟨by rw [d1]; norm_num, ?_⟩
  simp [CreatePhysicsBody, demoLayer, bodyLoop, bodyLoopStep, t, d1, AddLineToBody,
    AddSphereToBody, AddShapeToBody, b2Body.CreateFixture, CreateBody, b2Fixture.isPolygon,
    sphereShape, lineShape, List.filter, b2Body.GetPosition, SCREEN_TO_WORLD, PTM_RATIO]

/-- C10: for a stroke of n ≥ 2 points `p0, p1, ...` the boxes of the body are
the boxes of the `AddLineToBody` calls of the loop, and these calls form one
chain over the stroke: there are between 1 and n - 1 of them, the first starts
at `p0`, each later one starts where the one before ended, and the last ends at
the last point.  The body has 2 + (number of boxes) fixtures, two of them
circles, and the point sequence is empty afterwards. -/
theorem C10_box_chain (E : Extern) (self : State) (p0 p1 : CCPoint) (rest : List CCPoint) :
    ∃ body : b2Body,
      CreatePhysicsBody E { self with points_being_drawn_ := p0 :: p1 :: rest }
        = some (body, { self with points_being_drawn_ := [] }) ∧
      ({ self with points_being_drawn_ := [] } : State).points_being_drawn_ = [] ∧
      (body.fixtures.filter b2Fixture.isPolygon).map (fun f => f.shape)
        = (lineCalls E (toInt self.brush_radius_) p0 (p1 :: rest)).map (fun c =>
            lineShape E self (CreateBody ⟨p0.x / 32, p0.y / 32⟩) c.1 c.2) ∧
      1 ≤ (lineCalls E (toInt self.brush_radius_) p0 (p1 :: rest)).length ∧
      (lineCalls E (toInt self.brush_radius_) p0 (p1 :: rest)).length
        ≤ (p0 :: p1 :: rest).length - 1 ∧
      (lineCalls E (toInt self.brush_radius_) p0 (p1 :: rest)).head?.map Prod.fst = some p0 ∧
      List.Chain' (fun a b : CCPoint × CCPoint => a.2 = b.1)
        (lineCalls E (toInt self.brush_radius_) p0 (p1 :: rest)) ∧
      (lineCalls E (toInt self.brush_radius_) p0 (p1 :: rest)).getLast?.map Prod.snd
        = (p0 :: p1 :: rest).getLast? ∧
      body.fixtures.length
        = 2 + (lineCalls E (toInt self.brush_radius_) p0 (p1 :: rest)).length ∧
      (body.fixtures.filter b2Fixture.isCircle).length = 2 ∧
      (body.fixtures.filter b2Fixture.isPolygon).length
        = (lineCalls E (toInt self.brush_radius_) p0 (p1 :: rest)).length := by
  obtain ⟨h1, h2, h3, h4, h5⟩ :=
    lineCalls_chain E (toInt self.brush_radius_) (p1 :: rest) p0 (List.cons_ne_nil _ _)
  have hfix := fun st =>
    (bodyLoop_fixtures E { self with points_being_drawn_ := p0 :: p1 :: rest }
      (toInt self.brush_radius_) (p1 :: rest) st).2
  have hshape : ∀ (b : b2Body) (s e : CCPoint),
      lineShape E { self with points_being_drawn_ := p0 :: p1 :: rest } b s e
        = lineShape E self b s e := fun _ _ _ => rfl
  refine ⟨_, rfl, rfl, ?_, h1, ?_, h3, h4, ?_, ?_, ?_, ?_⟩
  · simp only [hfix, hshape]
    simp [AddSphereToBody, AddShapeToBody, b2Body.CreateFixture, CreateBody,
      b2Fixture.isPolygon, sphereShape, List.filter_append, List.filter_map,
      Function.comp_def, lineShape, b2Body.GetPosition, SCREEN_TO_WORLD, PTM_RATIO]
  · simp only [List.length_cons] at h2 ⊢
    omega
  · rw [h5, List.getLast?_cons_cons]
  · simp only [hfix]
    simp [AddSphereToBody, AddShapeToBody, b2Body.CreateFixture, CreateBody]
    omega
  · simp only [hfix, hshape]
    simp [AddSphereToBody, AddShapeToBody, b2Body.CreateFixture, CreateBody,
      b2Fixture.isCircle, sphereShape, List.filter_append, List.filter_map,
      Function.comp_def, lineShape]
  · simp only [hfix, hshape]
    simp [AddSphereToBody, AddShapeToBody, b2Body.CreateFixture, CreateBody,
      b2Fixture.isPolygon, sphereShape, List.filter_append, List.filter_map,
      Function.comp_def, lineShape]

/-! ## Claims on `DrawLine` -/

/-- C9: with a viewport at least `2 * brush_radius_` wide and high and a render
target present, `DrawLine` on (start, end) stamps the brush
`round(distance) = int(distance + 0.5)` times, `distance` being that of the
clamped end points; stamp `i` is at `start + (end - start) * (i / distance)`;
every stamp is a point of the segment from the clamped start to the clamped end
and lies in `[origin + radius, origin + size - radius]` on both axes; the point
appended to the stroke is the clamped end. -/
theorem C9_draw_line (E : Extern) (self : State) (start end_ : CCPoint)
    (rt : CCRenderTexture)
    (hw : 2 * self.brush_radius_ ≤ self.director.visibleSize.width)
    (hh : 2 * self.brush_radius_ ≤ self.director.visibleSize.height)
    (hrt : self.render_target_ = some rt) :
    ∃ stamps : List CCPoint,
      DrawLine E self start end_
        = some { self with
            render_target_ := some { rt with visits := rt.visits ++ stamps },
            points_being_drawn_ := self.points_being_drawn_ ++
              [ClampBrushLocation self.director self.brush_radius_ end_] } ∧
      stamps.length
        = (round (E.ccpDistance (ClampBrushLocation self.director self.brush_radius_ start)
            (ClampBrushLocation self.director self.brush_radius_ end_))).toNat ∧
      stamps.length
        = (toInt (E.ccpDistance (ClampBrushLocation self.director self.brush_radius_ start)
            (ClampBrushLocation self.director self.brush_radius_ end_) + 1 / 2)).toNat ∧
      (∀ i : ℕ, i < stamps.length → stamps[i]? = some
        ⟨(ClampBrushLocation self.director self.brush_radius_ start).x +
          ((ClampBrushLocation self.director self.brush_radius_ end_).x
            - (ClampBrushLocation self.director self.brush_radius_ start).x) *
          ((i : ℚ) / E.ccpDistance (ClampBrushLocation self.director self.brush_radius_ start)
            (ClampBrushLocation self.director self.brush_radius_ end_)),
         (ClampBrushLocation self.director self.brush_radius_ start).y +
          ((ClampBrushLocation self.director self.brush_radius_ end_).y
            - (ClampBrushLocation self.director self.brush_radius_ start).y) *
          ((i : ℚ) / E.ccpDistance (ClampBrushLocation self.director self.brush_radius_ start)
            (ClampBrushLocation self.director self.brush_radius_ end_))⟩) ∧
      (∀ p ∈ stamps, ∃ t : ℚ, 0 ≤ t ∧ t ≤ 1 ∧
        p.x = (ClampBrushLocation self.director self.brush_radius_ start).x +
          ((ClampBrushLocation self.director self.brush_radius_ end_).x
            - (ClampBrushLocation self.director self.brush_radius_ start).x) * t ∧
        p.y = (ClampBrushLocation self.director self.brush_radius_ start).y +
          ((ClampBrushLocation self.director self.brush_radius_ end_).y
            - (ClampBrushLocation self.director self.brush_radius_ start).y) * t) ∧
      (∀ p ∈ stamps, InBrushArea self.director self.brush_radius_ p) := by
  set s := ClampBrushLocation self.director self.brush_radius_ start with hs
  set e := ClampBrushLocation self.director self.brush_radius_ end_ with he
  set d := E.ccpDistance s e with hdd
  have hd : 0 ≤ d := E.ccpDistance_nonneg s e
  have hsA : InBrushArea self.director self.brush_radius_ s := clamp_in_area _ _ _ hw hh
  have heA : InBrushArea self.director self.brush_radius_ e := clamp_in_area _ _ _ hw hh
  have hmem : ∀ p ∈ (List.range (toInt (d + 1 / 2)).toNat).map (stampAt s e d),
      ∃ t : ℚ, 0 ≤ t ∧ t ≤ 1 ∧ p.x = s.x + (e.x - s.x) * t ∧ p.y = s.y + (e.y - s.y) * t := by
    intro p hp
    rw [List.mem_map] at hp
    obtain ⟨i, hi, rfl⟩ := hp
    rw [List.mem_range] at hi
    obtain ⟨t0, t1⟩ := stamp_ratio d hd i hi
    exact ⟨(i : ℚ) / d, t0, t1, rfl, rfl⟩
  refine ⟨(List.range (toInt (d + 1 / 2)).toNat).map (stampAt s e d), ?_, ?_, ?_, ?_, hmem, ?_⟩
  · unfold DrawLine
    simp only [hrt, ← hs, ← he, ← hdd]
    rw [foldl_visit]
  · rw [List.length_map, List.length_range, round_eq, toInt_of_nonneg _ (by linarith)]
  · rw [List.length_map, List.length_range]
  · intro i hi
    rw [List.length_map, List.length_range] at hi
    rw [List.getElem?_map, List.getElem?_range hi]
    rfl
  · intro p hp
    obtain ⟨t, t0, t1, hx, hy⟩ := hmem p hp
    obtain ⟨a1, a2, a3, a4⟩ := hsA
    obtain ⟨b1, b2, b3, b4⟩ := heA
    unfold InBrushArea
    rw [hx, hy]
    obtain ⟨c1, c2⟩ := segment_bounds _ _ s.x e.x t a1 a2 b1 b2 t0 t1
    obtain ⟨c3, c4⟩ := segment_bounds _ _ s.y e.y t a3 a4 b3 b4 t0 t1
    exact ⟨c1, c2, c3, c4⟩

/-- C9 witness: the stroke of `drawingLayer` is continued from (0, 0), which is
clamped to (8, 8), to (11, 12); the distance of the clamped end points is 5. -/
theorem C9_draw_line_witness :
    (2 * drawingLayer.brush_radius_ ≤ drawingLayer.director.visibleSize.width) ∧
    (2 * drawingLayer.brush_radius_ ≤ drawingLayer.director.visibleSize.height) ∧
    (drawingLayer.render_target_ = some (demoTarget.visit ⟨8, 8⟩)) ∧
    ∃ stamps : List CCPoint,
      DrawLine exactExtern drawingLayer ⟨0, 0⟩ ⟨11, 12⟩
        = some { drawingLayer with
            render_target_ := some { demoTarget.visit ⟨8, 8⟩ with
              visits := (demoTarget.visit ⟨8, 8⟩).visits ++ stamps },
            points_being_drawn_ := drawingLayer.points_being_drawn_ ++
              [ClampBrushLocation drawingLayer.director drawingLayer.brush_radius_ ⟨11, 12⟩] } ∧
      stamps.length
        = (round (exactExtern.ccpDistance (ClampBrushLocation drawingLayer.director drawingLayer.brush_radius_ ⟨0, 0⟩) (ClampBrushLocation drawingLayer.director drawingLayer.brush_radius_ ⟨11, 12⟩))).toNat ∧
      stamps.length
        = (toInt (exactExtern.ccpDistance (ClampBrushLocation drawingLayer.director drawingLayer.brush_radius_ ⟨0, 0⟩) (ClampBrushLocation drawingLayer.director drawingLayer.brush_radius_ ⟨11, 12⟩) + 1 / 2)).toNat ∧
      (∀ i : ℕ, i < stamps.length → stamps[i]? = some
        ⟨(ClampBrushLocation drawingLayer.director drawingLayer.brush_radius_ ⟨0, 0⟩).x + ((ClampBrushLocation drawingLayer.director drawingLayer.brush_radius_ ⟨11, 12⟩).x - (ClampBrushLocation drawingLayer.director drawingLayer.brush_radius_ ⟨0, 0⟩).x) *
          ((i : ℚ) / exactExtern.ccpDistance (ClampBrushLocation drawingLayer.director drawingLayer.brush_radius_ ⟨0, 0⟩) (ClampBrushLocation drawingLayer.director drawingLayer.brush_radius_ ⟨11, 12⟩)),
         (ClampBrushLocation drawingLayer.director drawingLayer.brush_radius_ ⟨0, 0⟩).y + ((ClampBrushLocation drawingLayer.director drawingLayer.brush_radius_ ⟨11, 12⟩).y - (ClampBrushLocation drawingLayer.director drawingLayer.brush_radius_ ⟨0, 0⟩).y) *
          ((i : ℚ) / exactExtern.ccpDistance (ClampBrushLocation drawingLayer.director drawingLayer.brush_radius_ ⟨0, 0⟩) (ClampBrushLocation drawingLayer.director drawingLayer.brush_radius_ ⟨11, 12⟩))⟩) ∧
      (∀ p ∈ stamps, ∃ t : ℚ, 0 ≤ t ∧ t ≤ 1 ∧
        p.x = (ClampBrushLocation drawingLayer.director drawingLayer.brush_radius_ ⟨0, 0⟩).x + ((ClampBrushLocation drawingLayer.director drawingLayer.brush_radius_ ⟨11, 12⟩).x - (ClampBrushLocation drawingLayer.director drawingLayer.brush_radius_ ⟨0, 0⟩).x) * t ∧
        p.y = (ClampBrushLocation drawingLayer.director drawingLayer.brush_radius_ ⟨0, 0⟩).y + ((ClampBrushLocation drawingLayer.director drawingLayer.brush_radius_ ⟨11, 12⟩).y - (ClampBrushLocation drawingLayer.director drawingLayer.brush_radius_ ⟨0, 0⟩).y) * t) ∧
      (∀ p ∈ stamps, InBrushArea drawingLayer.director drawingLayer.brush_radius_ p) :=
  have hw : 2 * drawingLayer.brush_radius_ ≤ drawingLayer.director.visibleSize.width := by
    simp [drawingLayer, demoLayer]; norm_num
  have hh : 2 * drawingLayer.brush_radius_ ≤ drawingLayer.director.visibleSize.height := by
    simp [drawingLayer, demoLayer]; norm_num
  ⟨hw, hh, rfl, C9_draw_line exactExtern drawingLayer ⟨0, 0⟩ ⟨11, 12⟩
    (demoTarget.visit ⟨8, 8⟩) hw hh rfl⟩

end LevelLayer







